import Mathlib

/-!
Verification of the travel-planner budget estimators.

Part 1 embeds `src/utils/budget_estimation.py` (class `BudgetEstimation`,
method `calculate_budget` with its price tables and the helper
`format_cost`).  Part 2 embeds `src/budget_estimation.py` (class
`BudgetEstimator`, method `suggest_budget_adjustments`).  Part 3 models the
four-argument `estimate_total_budget` variant that the specification lists
but whose source file is not in the repository snapshot.

Python floats are modelled as rationals; Python `round` (round half to
even) is `roundHalfEven`; a Python dict lookup that can raise `KeyError`
is a `String → Option _` table, and functions that can raise return
`Except PyError _`.  The shared random source consumed by
`numpy.random.choice` is an explicit injected oracle (`Rng`).
-/

namespace TravelBudget

/-- Python runtime errors that the embedded code can raise. -/
inductive PyError where
  | keyError (key : String)
  | indexError
  | zeroDivisionError
deriving DecidableEq, Repr

deriving instance DecidableEq for Except

/-- `CostOptions` dataclass.  The `attraction_details` field (an arbitrary
dict) is never read by `calculate_budget` and is omitted. -/
structure CostOptions where
  rental_car : String := "medium_car"
  hotel : String := "medium"
  restaurant : String := "medium"
  attraction : String := "medium"
  show_budget : Bool := true
deriving DecidableEq, Repr

/-- One activity slot of a day plan (the `day_plan` dict entries read by
`calculate_budget`). -/
structure Slot where
  already_slot : Bool
  content_category_name : String
  content : String
  duration : ℚ
deriving DecidableEq, Repr

/-- One entry of `locations_data`: the keys `persons`, `city` and
`detailed_plan` read by `calculate_budget`. -/
structure Location where
  persons : ℕ
  city : String
  detailed_plan : List (List Slot)
deriving DecidableEq, Repr

/-- Injected randomness source standing for `numpy.random.choice`. -/
structure Rng where
  pickCar : List String → String
  pickCost : List ℚ → ℚ

/-- An `att_action_cost` table entry: a flat price, or the list sampled
when the attraction tier is `random`. -/
inductive AttCost where
  | price (p : ℚ)
  | sample (ps : List ℚ)
deriving DecidableEq, Repr

def att_action_cost : String → Option AttCost
  | "free" => some (.price 0)
  | "low" => some (.price 500)
  | "medium" => some (.price 1000)
  | "high" => some (.price 1500)
  | "random" => some (.sample [0, 500, 1000, 1500])
  | _ => none

/-- `trans_action_cost` table (defined in `BudgetEstimation.__init__`; note
that `calculate_budget` never consults it). -/
def trans_action_cost : String → Option String
  | "medium_car" => some "rental_car"
  | "economy_car" => some "rental_car"
  | "full_size_car" => some "rental_car"
  | "standard_suv" => some "rental_car"
  | "large_suv" => some "rental_car"
  | "airplane" => some "flight"
  | "flight" => some "flight"
  | "train" => some "train"
  | "bus" => some "bus"
  | "train_or_bus" => some "train_or_bus"
  | "taxi" => some "bus"
  | "subway" => some "bus"
  | "boat" => some "bus"
  | _ => none

def discount_locations : List String :=
  ["Toronto", "New York", "San Francisco", "Las Vegas", "Los Angeles",
   "Paris", "London", "Tokyo", "Seoul", "Singapore"]

def rental_car_prices : String → Option ℚ
  | "economy_car" => some 25
  | "medium_car" => some 35
  | "standard_suv" => some 60
  | "large_suv" => some 90
  | "full_size_car" => some 40
  | _ => none

def train_costs : ℚ := 100
def bus_costs : ℚ := 30
def flight_costs : ℚ := 150

def hotel_costs : String → Option ℚ
  | "low" => some 80
  | "medium" => some 150
  | "high" => some 300
  | _ => none

def restaurant_costs : String → Option ℚ
  | "low" => some 10
  | "medium" => some 30
  | "high" => some 60
  | _ => none

/-- The list `numpy.random.choice` samples from when
`cost_options.rental_car == 'random'`. -/
def rental_car_classes : List String :=
  ["economy_car", "medium_car", "standard_suv", "large_suv", "full_size_car"]

/-- The `if/elif` chain of `calculate_budget` handling one `day_plan` slot.
The updates to the `visited_restaurants` and `visited_attractions` ledgers
do not influence the returned value and are not tracked. -/
def processSlot (cfg : CostOptions) (rng : Rng) (person_count : ℕ)
    (slot : Slot) (budget : ℚ) : Except PyError ℚ :=
  if slot.already_slot then .ok budget
  else if slot.content_category_name = "accommodation" then
    match hotel_costs cfg.hotel with
    | none => .error (.keyError cfg.hotel)
    | some c => .ok (budget - c * person_count)
  else if slot.content_category_name = "transport" ∧ slot.content = "rental picks up" then
    let rental_car_choice :=
      if cfg.rental_car ≠ "random" then cfg.rental_car
      else rng.pickCar rental_car_classes
    match rental_car_prices rental_car_choice with
    | none => .error (.keyError rental_car_choice)
    | some car_price => .ok (budget - car_price * slot.duration)
  else if slot.content_category_name = "transport" ∧ slot.content = "flight" then
    .ok (budget - flight_costs * person_count)
  else if slot.content_category_name = "transport" ∧ slot.content = "train" then
    .ok (budget - train_costs * person_count)
  else if slot.content_category_name = "transport" ∧ slot.content = "bus" then
    .ok (budget - bus_costs * person_count)
  else if slot.content_category_name = "food" then
    match restaurant_costs cfg.restaurant with
    | none => .error (.keyError cfg.restaurant)
    | some c => .ok (budget - c * person_count)
  else if slot.content_category_name = "attraction" then
    match att_action_cost cfg.attraction with
    | none => .error (.keyError cfg.attraction)
    | some (.price p) => .ok (budget - p * person_count)
    | some (.sample ps) => .ok (budget - rng.pickCost ps * person_count)
  else .ok budget

/-- The inner `for day_plan in location['detailed_plan'][day]` loop. -/
def processSlots (cfg : CostOptions) (rng : Rng) (person_count : ℕ) :
    List Slot → ℚ → Except PyError ℚ
  | [], budget => .ok budget
  | slot :: rest, budget =>
    match processSlot cfg rng person_count slot budget with
    | .error e => .error e
    | .ok b2 => processSlots cfg rng person_count rest b2

/-- The discount-day / vacation-day block at the end of a day iteration. -/
def applyDiscount (city : String) (day total_days : ℕ) (budget : ℚ) : ℚ :=
  if day = total_days / 4 ∨ day = total_days / 3 then
    let discount_factor : ℚ := if city ∈ discount_locations then 1 / 10 else 5 / 100
    budget + budget * discount_factor
  else budget

/-- The minimum-daily-budget floor block at the end of a day iteration. -/
def applyFloor (person_count : ℕ) (day total_days : ℕ) (budget : ℚ) : ℚ :=
  let remaining_budget := max budget 0
  let remaining_budget_per_day := remaining_budget / ((total_days : ℚ) - (day : ℚ))
  if remaining_budget_per_day < 100 then
    budget + (100 - remaining_budget_per_day) * person_count
  else budget

/-- Decimal digits of `n`, most significant first; `fuel` bounds the
recursion depth. -/
def natReprAux : ℕ → ℕ → List Char
  | 0, _ => []
  | fuel + 1, n =>
    if n < 10 then [Nat.digitChar n]
    else natReprAux fuel (n / 10) ++ [Nat.digitChar (n % 10)]

def natRepr (n : ℕ) : List Char := natReprAux (n + 1) n

/-- Round half to even, as Python `round` and `str.format` do. -/
def roundHalfEven (q : ℚ) : ℤ :=
  let f := ⌊q⌋
  let frac := q - (f : ℚ)
  if frac < 1 / 2 then f
  else if 1 / 2 < frac then f + 1
  else if f % 2 = 0 then f else f + 1

/-- Rendering of `f"{cost:.2f}"`: optional sign, integer part, a point,
and exactly two fractional digits. -/
def renderFixed2 (q : ℚ) : String :=
  let cents := roundHalfEven (q * 100)
  let a := cents.natAbs
  let sign := if q < 0 then "-" else ""
  sign ++ String.mk (natRepr (a / 100)) ++ "." ++
    String.mk [Nat.digitChar (a % 100 / 10), Nat.digitChar (a % 100 % 10)]

/-- `format_cost` helper of `calculate_budget`: `f"app{cost:.2f}"`. -/
def format_cost (cost : ℚ) : String := "app" ++ renderFixed2 cost

/-- The `for day in range(total_days)` loop body of `calculate_budget`,
over the list of remaining day indices.  The source's loop body ends in an
unconditional `return format_cost(budget)`, so the iteration never
continues past its first element; `.inl` reports a loop that ran zero
iterations, `.inr` the early-returned string. -/
def dayLoop (cfg : CostOptions) (rng : Rng) (loc : Location) (total_days : ℕ) :
    List ℕ → ℚ → Except PyError (ℚ ⊕ String)
  | [], budget => .ok (.inl budget)
  | day :: _, budget =>
    match loc.detailed_plan[day]? with
    | none => .error .indexError
    | some day_plans =>
      match processSlots cfg rng loc.persons day_plans budget with
      | .error e => .error e
      | .ok b2 =>
        let b3 := applyDiscount loc.city day total_days b2
        let b4 := applyFloor loc.persons day total_days b3
        .ok (.inr (format_cost b4))

/-- The outer `for location in locations_data` loop of `calculate_budget`,
followed by the final `return format_cost(budget)`. -/
def locLoop (cfg : CostOptions) (rng : Rng) (total_days : ℕ) :
    List Location → ℚ → Except PyError String
  | [], budget => .ok (format_cost budget)
  | loc :: rest, budget =>
    match dayLoop cfg rng loc total_days (List.range total_days) budget with
    | .error e => .error e
    | .ok (.inr s) => .ok s
    | .ok (.inl b2) => locLoop cfg rng total_days rest b2

/-- `BudgetEstimation.calculate_budget` from
`src/utils/budget_estimation.py`. -/
def calculate_budget (cfg : CostOptions) (rng : Rng)
    (locations_data : List Location) (total_days : ℕ) (budget : ℚ) :
    Except PyError String :=
  locLoop cfg rng total_days locations_data budget

/-! Part 2: `BudgetEstimator` from `src/budget_estimation.py`. -/

/-- Python `round(x, 2)`. -/
def round2 (q : ℚ) : ℚ := (roundHalfEven (q * 100) : ℚ) / 100

/-- One entry of the `suggestions` list built by
`suggest_budget_adjustments`; `amount` and `percentage` are absent in the
`optimal` case. -/
structure Suggestion where
  type : String
  amount : Option ℚ
  percentage : Option ℚ
  message : String
deriving DecidableEq, Repr

/-- The dict returned by `suggest_budget_adjustments`. -/
structure AdjustResult where
  current_budget : ℚ
  target_range : List ℚ
  suggestions : List Suggestion
deriving DecidableEq, Repr

/-- `BudgetEstimator.suggest_budget_adjustments`.  The division
`difference / current_budget` raises `ZeroDivisionError` in Python when
`current_budget == 0`, hence the explicit error branches. -/
def suggest_budget_adjustments (current_budget : ℚ)
    (target_range : ℚ × ℚ) : Except PyError AdjustResult :=
  let min_target := target_range.1
  let max_target := target_range.2
  if current_budget < min_target then
    let difference := min_target - current_budget
    if current_budget = 0 then .error .zeroDivisionError
    else
      let percentage := difference / current_budget * 100
      .ok ⟨current_budget, [min_target, max_target],
        [⟨"increase", some (round2 difference), some (round2 percentage),
          "Consider adding more activities or dining at higher-end restaurants"⟩]⟩
  else if max_target < current_budget then
    let difference := current_budget - max_target
    if current_budget = 0 then .error .zeroDivisionError
    else
      let percentage := difference / current_budget * 100
      .ok ⟨current_budget, [min_target, max_target],
        [⟨"decrease", some (round2 difference), some (round2 percentage),
          "Consider budget accommodations, free attractions, or local dining options"⟩]⟩
  else
    .ok ⟨current_budget, [min_target, max_target],
      [⟨"optimal", none, none, "Budget is within the target range"⟩]⟩

/-- `BudgetEstimator.BUDGET_CONSTRAINTS` (per-day per-person min/max by
travel style). -/
def BUDGET_CONSTRAINTS : String → Option (ℚ × ℚ)
  | "budget" => some (50, 150)
  | "moderate" => some (150, 300)
  | "luxury" => some (300, 1000)
  | _ => none

/-- The base daily amount of `estimate_daily_budget`: the midpoint of the
style's constraint range, defaulting to `moderate` for an unknown style
(`BUDGET_CONSTRAINTS.get(style, BUDGET_CONSTRAINTS["moderate"])`). -/
def styleDaily (travel_style : String) : ℚ :=
  match BUDGET_CONSTRAINTS travel_style with
  | some c => (c.1 + c.2) / 2
  | none => (150 + 300) / 2

/-! Part 3: the four-argument `estimate_total_budget` variant.  The
specification's interface list names
`estimate_total_budget(days, style, destination_tier, num_travelers) ->
breakdown_record`, but the source file holding that variant is not in the
repository snapshot (only the itinerary-based variant is). -/

/-- Breakdown record returned by the four-argument
`estimate_total_budget`. -/
structure TotalBudgetBreakdown where
  base_total : ℚ
  accommodation_total : ℚ
  meals_total : ℚ
  transportation_total : ℚ
  activities_estimate : ℚ
  contingency : ℚ
  total_estimate : ℚ
deriving DecidableEq, Repr

/-- Modelled from the spec: the four-argument
`estimate_total_budget(days, style, destination_tier, num_travelers)`
variant is missing from the source tree.  Per the specification, the daily
amount comes from the travel style (midpoint of the style's per-day range)
scaled by the destination multiplier, `base_total = daily × days × n`,
`activities_estimate` is 15% and `contingency` 10% of `base_total`, and
`total_estimate` is the sum of the five components.  The spec does not fix
the split of `base_total` across accommodation, meals and transportation;
the 45/30/25 split chosen here is a modelling choice on which no claim
depends. -/
def estimate_total_budget (days : ℕ) (travel_style : String)
    (destination_tier : ℚ) (num_travelers : ℕ) : TotalBudgetBreakdown :=
  let daily := styleDaily travel_style * destination_tier
  let base_total := daily * (days : ℚ) * (num_travelers : ℚ)
  let accommodation_total := 45 / 100 * base_total
  let meals_total := 30 / 100 * base_total
  let transportation_total := 25 / 100 * base_total
  let activities_estimate := 15 / 100 * base_total
  let contingency := 10 / 100 * base_total
  { base_total := base_total
    accommodation_total := accommodation_total
    meals_total := meals_total
    transportation_total := transportation_total
    activities_estimate := activities_estimate
    contingency := contingency
    total_estimate := accommodation_total + meals_total +
      transportation_total + activities_estimate + contingency }

/-! Concrete inputs used by witnesses and counterexamples. -/

/-- A deterministic instantiation of the random source. -/
def rng0 : Rng := ⟨fun l => l.headD "", fun l => l.headD 0⟩

def cfgDefault : CostOptions := {}

/-- Cost options whose hotel tier is not one of `low`/`medium`/`high`. -/
def cfgLuxury : CostOptions := { hotel := "luxury" }

def accommodationSlot : Slot := ⟨false, "accommodation", "Grand Hotel", 0⟩

def taxiSlot : Slot := ⟨false, "transport", "taxi", 0⟩

def flightSlot : Slot := ⟨false, "transport", "flight", 0⟩

/-- One traveler, city outside the discount set, an accommodation slot on
day 1 and nothing on day 0. -/
def locLateHotel : Location := ⟨1, "X", [[], [accommodationSlot]]⟩

/-- One traveler, city outside the discount set, an accommodation slot on
day 0. -/
def locDay0Hotel : Location := ⟨1, "X", [[accommodationSlot]]⟩

/-- One traveler, city outside the discount set, a flight slot on day 0. -/
def locFlight : Location := ⟨1, "X", [[flightSlot]]⟩

def locParis : Location := ⟨2, "Paris", [[flightSlot], [accommodationSlot]]⟩

def locLondon : Location := ⟨3, "London", [[accommodationSlot]]⟩

/-! Helper lemmas. -/

lemma roundHalfEven_int (n : ℤ) : roundHalfEven (n : ℚ) = n := by
  unfold roundHalfEven
  rw [Int.floor_intCast]
  norm_num

lemma roundHalfEven_add_half (n : ℤ) :
    roundHalfEven ((n : ℚ) + 1 / 2) = if n % 2 = 0 then n else n + 1 := by
  have hf : ⌊(n : ℚ) + 1 / 2⌋ = n := by
    rw [Int.floor_eq_iff]
    constructor
    · linarith
    · linarith
  unfold roundHalfEven
  rw [hf]
  norm_num

lemma renderFixed2_eval (q : ℚ) (c : ℤ) (h : roundHalfEven (q * 100) = c) :
    renderFixed2 q = (if q < 0 then "-" else "") ++ String.mk (natRepr (c.natAbs / 100)) ++ "." ++
      String.mk [Nat.digitChar (c.natAbs % 100 / 10), Nat.digitChar (c.natAbs % 100 % 10)] := by
  unfold renderFixed2
  rw [h]

/-- Evaluation of `calculate_budget` on a non-empty location list with a
positive day count: only day 0 of the first location is consulted before
the early return. -/
lemma calculate_budget_cons (cfg : CostOptions) (rng : Rng) (loc : Location)
    (locs : List Location) (total_days : ℕ) (b : ℚ) (h : total_days ≠ 0) :
    calculate_budget cfg rng (loc :: locs) total_days b =
      match loc.detailed_plan[0]? with
      | none => .error .indexError
      | some day_plans =>
        match processSlots cfg rng loc.persons day_plans b with
        | .error e => .error e
        | .ok b2 =>
          .ok (format_cost (applyFloor loc.persons 0 total_days
                (applyDiscount loc.city 0 total_days b2))) := by
  obtain ⟨n, rfl⟩ := Nat.exists_eq_succ_of_ne_zero h
  unfold calculate_budget locLoop
  rw [List.range_succ_eq_map]
  unfold dayLoop
  cases hplan : loc.detailed_plan[0]? with
  | none => simp [hplan]
  | some plans =>
    simp only [hplan]
    cases hps : processSlots cfg rng loc.persons plans b <;> simp [hps]

lemma string_append_assoc (a b c : String) : a ++ b ++ c = a ++ (b ++ c) := by
  apply String.ext
  simp only [String.data_append, List.append_assoc]

lemma digitChar_isDigit (k : ℕ) (h : k < 10) : (Nat.digitChar k).isDigit = true := by
  interval_cases k <;> decide

lemma natReprAux_digits (fuel : ℕ) :
    ∀ n : ℕ, ∀ c ∈ natReprAux fuel n, c.isDigit = true := by
  induction fuel with
  | zero => intro n c hc; simp [natReprAux] at hc
  | succ fuel ih =>
    intro n c hc
    unfold natReprAux at hc
    by_cases h : n < 10
    · rw [if_pos h] at hc
      simp only [List.mem_singleton] at hc
      subst hc
      exact digitChar_isDigit n h
    · rw [if_neg h] at hc
      rcases List.mem_append.mp hc with h1 | h1
      · exact ih _ c h1
      · simp only [List.mem_singleton] at h1
        subst h1
        exact digitChar_isDigit _ (Nat.mod_lt _ (by norm_num))

lemma natRepr_digits (n : ℕ) : ∀ c ∈ natRepr n, c.isDigit = true :=
  natReprAux_digits _ n

lemma dayLoop_ok_inr (cfg : CostOptions) (rng : Rng) (loc : Location)
    (td : ℕ) (days : List ℕ) (b : ℚ) (s : String)
    (h : dayLoop cfg rng loc td days b = .ok (.inr s)) : ∃ q, s = format_cost q := by
  cases days with
  | nil => simp [dayLoop] at h
  | cons day rest =>
    simp only [dayLoop] at h
    split at h
    · cases h
    · split at h
      · cases h
      · simp only [Except.ok.injEq, Sum.inr.injEq] at h
        exact ⟨_, h.symm⟩

lemma locLoop_ok (cfg : CostOptions) (rng : Rng) (td : ℕ) :
    ∀ (locs : List Location) (b : ℚ) (s : String),
      locLoop cfg rng td locs b = .ok s → ∃ q, s = format_cost q := by
  intro locs
  induction locs with
  | nil =>
    intro b s h
    unfold locLoop at h
    simp only [Except.ok.injEq] at h
    exact ⟨b, h.symm⟩
  | cons loc rest ih =>
    intro b s h
    unfold locLoop at h
    cases hd : dayLoop cfg rng loc td (List.range td) b with
    | error e => rw [hd] at h; cases h
    | ok v =>
      rw [hd] at h
      cases v with
      | inl b2 => exact ih b2 s h
      | inr s2 =>
        simp only [Except.ok.injEq] at h
        subst h
        exact dayLoop_ok_inr cfg rng loc td (List.range td) b s2 hd

lemma processSlots_insert_noop (cfg : CostOptions) (rng : Rng) (p : ℕ) (slot : Slot)
    (hok : ∀ b, processSlot cfg rng p slot b = .ok b) :
    ∀ (l1 l2 : List Slot) (b : ℚ),
      processSlots cfg rng p (l1 ++ slot :: l2) b = processSlots cfg rng p (l1 ++ l2) b := by
  intro l1
  induction l1 with
  | nil =>
    intro l2 b
    simp only [List.nil_append, processSlots, hok b]
  | cons s l1 ih =>
    intro l2 b
    simp only [List.cons_append, processSlots]
    cases processSlot cfg rng p s b <;> simp [ih]

lemma processSlot_bad_error (cfg : CostOptions) (rng : Rng) (p : ℕ) (slot : Slot) (b : ℚ)
    (hns : slot.already_slot = false)
    (hbad : (slot.content_category_name = "accommodation" ∧ hotel_costs cfg.hotel = none)
      ∨ (slot.content_category_name = "food" ∧ restaurant_costs cfg.restaurant = none)
      ∨ (slot.content_category_name = "attraction" ∧ att_action_cost cfg.attraction = none)) :
    ∃ e, processSlot cfg rng p slot b = .error e := by
  rcases hbad with ⟨hcat, hnone⟩ | ⟨hcat, hnone⟩ | ⟨hcat, hnone⟩
  · exact ⟨.keyError cfg.hotel, by simp [processSlot, hns, hcat, hnone]⟩
  · exact ⟨.keyError cfg.restaurant, by simp [processSlot, hns, hcat, hnone]⟩
  · exact ⟨.keyError cfg.attraction, by simp [processSlot, hns, hcat, hnone]⟩

lemma processSlots_error_of_mem (cfg : CostOptions) (rng : Rng) (p : ℕ) (slot : Slot)
    (hns : slot.already_slot = false)
    (hbad : (slot.content_category_name = "accommodation" ∧ hotel_costs cfg.hotel = none)
      ∨ (slot.content_category_name = "food" ∧ restaurant_costs cfg.restaurant = none)
      ∨ (slot.content_category_name = "attraction" ∧ att_action_cost cfg.attraction = none)) :
    ∀ (l : List Slot), slot ∈ l → ∀ b : ℚ, ∃ e, processSlots cfg rng p l b = .error e := by
  intro l
  induction l with
  | nil => intro h; cases h
  | cons s rest ih =>
    intro hmem b
    cases hps : processSlot cfg rng p s b with
    | error e => exact ⟨e, by simp [processSlots, hps]⟩
    | ok b2 =>
      rcases List.mem_cons.mp hmem with rfl | hmem2
      · obtain ⟨e, he⟩ := processSlot_bad_error cfg rng p slot b hns hbad
        rw [hps] at he
        cases he
      · obtain ⟨e, he⟩ := ih hmem2 b2
        exact ⟨e, by simp [processSlots, hps, he]⟩

/-! Claim theorems. -/

/-- Claim C1: for every non-empty locations sequence, positive
`total_days`, starting budget and cost options, `calculate_budget`
executes an unconditional return inside the day loop: it processes only
the slots of day 0 of the first location (plus that day's discount and
floor adjustments) and returns, so the result is independent of every
later day and every later location.  Stated as: the run on the full input
equals the run on just the first location with its plan truncated to its
day-0 entry. -/
theorem calculate_budget_early_return (cfg : CostOptions) (rng : Rng) (loc : Location)
    (locs : List Location) (total_days : ℕ) (b : ℚ) (htd : 0 < total_days) :
    calculate_budget cfg rng (loc :: locs) total_days b =
      calculate_budget cfg rng
        [Location.mk loc.persons loc.city (loc.detailed_plan.take 1)] total_days b := by
  rw [calculate_budget_cons cfg rng loc locs total_days b (Nat.pos_iff_ne_zero.mp htd),
    calculate_budget_cons cfg rng _ [] total_days b (Nat.pos_iff_ne_zero.mp htd)]
  cases hdp : loc.detailed_plan with
  | nil => simp [hdp]
  | cons p ps => simp [hdp]

/-- Claim C3 (amended): in `calculate_budget`, after the slots of a day
are processed, if the day index equals `total_days / 4` or
`total_days / 3` the budget receives an adjustment equal to 10% of the
current budget when the location's city is in the discount set and 5%
otherwise (an increase when the current budget is positive; zero or a
decrease when the current budget is zero or negative); on every other day
index the budget is unchanged. -/
theorem applyDiscount_spec (city : String) (day total_days : ℕ) (b : ℚ) :
    (day = total_days / 4 ∨ day = total_days / 3 →
      applyDiscount city day total_days b =
        b + b * (if city ∈ discount_locations then 1 / 10 else 5 / 100)) ∧
    (¬(day = total_days / 4 ∨ day = total_days / 3) →
      applyDiscount city day total_days b = b) ∧
    ((day = total_days / 4 ∨ day = total_days / 3) → 0 < b →
      b < applyDiscount city day total_days b) := by
  refine ⟨fun h => ?_, fun h => ?_, fun h hb => ?_⟩
  · simp only [applyDiscount]
    rw [if_pos h]
  · simp only [applyDiscount]
    rw [if_neg h]
  · simp only [applyDiscount]
    rw [if_pos h]
    have hd : (0 : ℚ) < if city ∈ discount_locations then 1 / 10 else 5 / 100 := by
      split <;> norm_num
    nlinarith

/-- Claim C4: in `calculate_budget`, after the discount-day step on each
processed day (`day < total_days`), the value
`remaining_budget_per_day = max(budget, 0) / (total_days - day)` is
computed; if it is strictly below 100 then
`(100 - remaining_budget_per_day) * persons` is added to the budget, and
if it is at least 100 the budget is left unchanged. -/
theorem applyFloor_spec (person_count day total_days : ℕ) (b : ℚ)
    (h : day < total_days) :
    (max b 0 / ((total_days : ℚ) - (day : ℚ)) < 100 →
      applyFloor person_count day total_days b =
        b + (100 - max b 0 / ((total_days : ℚ) - (day : ℚ))) * (person_count : ℚ)) ∧
    (100 ≤ max b 0 / ((total_days : ℚ) - (day : ℚ)) →
      applyFloor person_count day total_days b = b) := by
  constructor
  · intro hlt
    simp only [applyFloor]
    rw [if_pos hlt]
  · intro hge
    simp only [applyFloor]
    rw [if_neg (not_lt.mpr hge)]

/-- Claim C10: a transport slot whose content is none of exactly
`rental picks up`, `flight`, `train`, `bus` leaves the budget unchanged
and raises no error, both at the single-slot dispatch and when inserted
anywhere into a processed slot list of `calculate_budget`. -/
theorem unknown_transport_noop (cfg : CostOptions) (rng : Rng) (person_count : ℕ)
    (slot : Slot) (b : ℚ)
    (hcat : slot.content_category_name = "transport")
    (h1 : slot.content ≠ "rental picks up") (h2 : slot.content ≠ "flight")
    (h3 : slot.content ≠ "train") (h4 : slot.content ≠ "bus") :
    processSlot cfg rng person_count slot b = .ok b ∧
    ∀ l1 l2 : List Slot,
      processSlots cfg rng person_count (l1 ++ slot :: l2) b =
        processSlots cfg rng person_count (l1 ++ l2) b := by
  have hok : ∀ b' : ℚ, processSlot cfg rng person_count slot b' = .ok b' := by
    intro b'
    simp [processSlot, hcat, h1, h2, h3, h4]
  exact ⟨hok b, fun l1 l2 => processSlots_insert_noop cfg rng person_count slot hok l1 l2 b⟩

/-- Claim C5 (amended): for every nonzero current budget and target range
`(min, max)` (the zero case raises `ZeroDivisionError`, see C9): if
`current < min`, `suggest_budget_adjustments` returns one suggestion of
type `increase` with amount `round(min - current, 2)`; if `current > max`
it returns type `decrease` with amount `round(current - max, 2)`;
otherwise it returns type `optimal` carrying no amount. -/
theorem suggest_adjustments_spec (current_budget min_target max_target : ℚ)
    (h0 : current_budget ≠ 0) :
    (current_budget < min_target →
      suggest_budget_adjustments current_budget (min_target, max_target) =
        .ok ⟨current_budget, [min_target, max_target],
          [⟨"increase", some (round2 (min_target - current_budget)),
            some (round2 ((min_target - current_budget) / current_budget * 100)),
            "Consider adding more activities or dining at higher-end restaurants"⟩]⟩) ∧
    (¬current_budget < min_target → max_target < current_budget →
      suggest_budget_adjustments current_budget (min_target, max_target) =
        .ok ⟨current_budget, [min_target, max_target],
          [⟨"decrease", some (round2 (current_budget - max_target)),
            some (round2 ((current_budget - max_target) / current_budget * 100)),
            "Consider budget accommodations, free attractions, or local dining options"⟩]⟩) ∧
    (¬current_budget < min_target → ¬max_target < current_budget →
      suggest_budget_adjustments current_budget (min_target, max_target) =
        .ok ⟨current_budget, [min_target, max_target],
          [⟨"optimal", none, none, "Budget is within the target range"⟩]⟩) := by
  refine ⟨fun hlt => ?_, fun hge hgt => ?_, fun hge hle => ?_⟩
  · simp only [suggest_budget_adjustments]
    rw [if_pos hlt, if_neg h0]
  · simp only [suggest_budget_adjustments]
    rw [if_neg hge, if_pos hgt, if_neg h0]
  · simp only [suggest_budget_adjustments]
    rw [if_neg hge, if_neg hle]

/-- Claim C9: for `current_budget = 0` and any target range with
`min > 0` (and likewise when `0` is strictly above `max`),
`suggest_budget_adjustments` fails with a division-by-zero error when
computing the percentage, instead of returning a suggestion record. -/
theorem suggest_adjustments_zero_div (min_target max_target : ℚ)
    (h : 0 < min_target ∨ max_target < 0) :
    suggest_budget_adjustments 0 (min_target, max_target) =
      .error .zeroDivisionError := by
  rcases h with h | h
  · simp only [suggest_budget_adjustments]
    rw [if_pos h]
    simp
  · by_cases h1 : (0 : ℚ) < min_target
    · simp only [suggest_budget_adjustments]
      rw [if_pos h1]
      simp
    · simp only [suggest_budget_adjustments]
      rw [if_neg h1, if_pos h]
      simp

/-- Claim C7 (amended): if the day-0 plan of the first location contains a
priced (non-`already_slot`) accommodation, food or attraction slot and the
corresponding tier in the cost options is not one of the fixed enumerated
keys, `calculate_budget` signals a lookup error rather than skipping or
defaulting the slot's cost.  (Slots on later days or later locations are
never reached because of the early return — see the counterexample.) -/
theorem unknown_tier_error (cfg : CostOptions) (rng : Rng) (loc : Location)
    (locs : List Location) (total_days : ℕ) (b : ℚ) (plan0 : List Slot) (slot : Slot)
    (htd : 0 < total_days)
    (hplan : loc.detailed_plan[0]? = some plan0)
    (hmem : slot ∈ plan0)
    (hns : slot.already_slot = false)
    (hbad : (slot.content_category_name = "accommodation" ∧ hotel_costs cfg.hotel = none)
      ∨ (slot.content_category_name = "food" ∧ restaurant_costs cfg.restaurant = none)
      ∨ (slot.content_category_name = "attraction" ∧ att_action_cost cfg.attraction = none)) :
    ∃ e, calculate_budget cfg rng (loc :: locs) total_days b = .error e := by
  obtain ⟨e, he⟩ :=
    processSlots_error_of_mem cfg rng loc.persons slot hns hbad plan0 hmem b
  refine ⟨e, ?_⟩
  rw [calculate_budget_cons cfg rng loc locs total_days b (Nat.pos_iff_ne_zero.mp htd), hplan]
  simp only [he]

/-- Claim C8: whenever `calculate_budget` returns a value, the string is
the fixed prefix `app` followed by the budget rendered with exactly two
digits after the decimal point: it splits as
`"app" ++ p ++ "." ++ two digit characters` with no decimal point inside
`p`. -/
theorem calculate_budget_format (cfg : CostOptions) (rng : Rng) (locs : List Location)
    (total_days : ℕ) (b : ℚ) (s : String)
    (h : calculate_budget cfg rng locs total_days b = .ok s) :
    ∃ p c1 c2, s = "app" ++ p ++ "." ++ String.mk [c1, c2] ∧
      '.' ∉ p.data ∧ c1.isDigit = true ∧ c2.isDigit = true := by
  obtain ⟨q, rfl⟩ := locLoop_ok cfg rng total_days locs b s h
  refine ⟨(if q < 0 then "-" else "") ++
      String.mk (natRepr ((roundHalfEven (q * 100)).natAbs / 100)),
    Nat.digitChar ((roundHalfEven (q * 100)).natAbs % 100 / 10),
    Nat.digitChar ((roundHalfEven (q * 100)).natAbs % 100 % 10), ?_, ?_, ?_, ?_⟩
  · unfold format_cost renderFixed2
    apply String.ext
    simp [String.data_append, List.append_assoc]
  · intro hc
    rw [String.data_append] at hc
    rcases List.mem_append.mp hc with h1 | h1
    · by_cases hq : q < 0
      · rw [if_pos hq] at h1
        simp at h1
      · rw [if_neg hq] at h1
        simp at h1
    · have hmk : (String.mk (natRepr ((roundHalfEven (q * 100)).natAbs / 100))).data =
          natRepr ((roundHalfEven (q * 100)).natAbs / 100) := rfl
      rw [hmk] at h1
      have := natRepr_digits _ '.' h1
      exact absurd this (by decide)
  · exact digitChar_isDigit _
      ((Nat.div_lt_iff_lt_mul (by norm_num)).mpr (Nat.mod_lt _ (by norm_num)))
  · exact digitChar_isDigit _ (Nat.mod_lt _ (by norm_num))

/-- Claim C2: for every positive `days`, valid style, destination tier and
traveler count `n`, the total-budget estimate decomposes exactly as
`total_estimate = accommodation_total + meals_total + transportation_total
+ activities_estimate + contingency`, with `activities_estimate` equal to
15% and `contingency` equal to 10% of `base_total = daily × days × n`. -/
theorem estimate_total_budget_decomposition (days : ℕ) (travel_style : String)
    (destination_tier : ℚ) (n : ℕ) (hd : 0 < days)
    (hs : travel_style = "budget" ∨ travel_style = "moderate" ∨ travel_style = "luxury") :
    (estimate_total_budget days travel_style destination_tier n).total_estimate =
      (estimate_total_budget days travel_style destination_tier n).accommodation_total +
      (estimate_total_budget days travel_style destination_tier n).meals_total +
      (estimate_total_budget days travel_style destination_tier n).transportation_total +
      (estimate_total_budget days travel_style destination_tier n).activities_estimate +
      (estimate_total_budget days travel_style destination_tier n).contingency ∧
    (estimate_total_budget days travel_style destination_tier n).activities_estimate =
      15 / 100 * (styleDaily travel_style * destination_tier * (days : ℚ) * (n : ℚ)) ∧
    (estimate_total_budget days travel_style destination_tier n).contingency =
      10 / 100 * (styleDaily travel_style * destination_tier * (days : ℚ) * (n : ℚ)) :=
  ⟨rfl, rfl, rfl⟩

/-- Claim C6: for every positive `days`, valid style and tier, the total
budget estimate is linear in the number of travelers: estimating with `2n`
travelers yields exactly twice the `total_estimate` obtained with `n`
travelers. -/
theorem estimate_total_budget_linear (days : ℕ) (travel_style : String)
    (destination_tier : ℚ) (n : ℕ) (hd : 0 < days)
    (hs : travel_style = "budget" ∨ travel_style = "moderate" ∨ travel_style = "luxury") :
    (estimate_total_budget days travel_style destination_tier (2 * n)).total_estimate =
      2 * (estimate_total_budget days travel_style destination_tier n).total_estimate := by
  simp only [estimate_total_budget]
  push_cast
  ring

/-! Witnesses and counterexamples. -/

/-- Witness for C1 at a concrete two-location itinerary. -/
theorem calculate_budget_early_return_witness :
    calculate_budget cfgDefault rng0 [locParis, locLondon] 1 100 =
      calculate_budget cfgDefault rng0
        [Location.mk locParis.persons locParis.city (locParis.detailed_plan.take 1)] 1 100 :=
  calculate_budget_early_return cfgDefault rng0 locParis [locLondon] 1 100 (by norm_num)

/-- Witness for C2 at `days = 3`, style `moderate`, tier `1`, `n = 2`. -/
theorem estimate_total_budget_decomposition_witness :
    (estimate_total_budget 3 "moderate" 1 2).total_estimate =
      (estimate_total_budget 3 "moderate" 1 2).accommodation_total +
      (estimate_total_budget 3 "moderate" 1 2).meals_total +
      (estimate_total_budget 3 "moderate" 1 2).transportation_total +
      (estimate_total_budget 3 "moderate" 1 2).activities_estimate +
      (estimate_total_budget 3 "moderate" 1 2).contingency ∧
    (estimate_total_budget 3 "moderate" 1 2).activities_estimate =
      15 / 100 * (styleDaily "moderate" * 1 * (3 : ℚ) * (2 : ℚ)) ∧
    (estimate_total_budget 3 "moderate" 1 2).contingency =
      10 / 100 * (styleDaily "moderate" * 1 * (3 : ℚ) * (2 : ℚ)) := by
  have h := estimate_total_budget_decomposition 3 "moderate" 1 2 (by norm_num)
    (Or.inr (Or.inl rfl))
  refine ⟨h.1, ?_, ?_⟩
  · rw [h.2.1]
    norm_num
  · rw [h.2.2]
    norm_num

/-- Witness for the amended C3 on a discount day for a discount city. -/
theorem applyDiscount_spec_witness : applyDiscount "Tokyo" 0 3 100 = 110 := by
  rw [(applyDiscount_spec "Tokyo" 0 3 100).1 (Or.inl (by norm_num))]
  rw [if_pos (show "Tokyo" ∈ discount_locations by decide)]
  norm_num

/-- Counterexample for C3 as stated: on a discount day with a negative
running budget the adjustment is negative, not positive; the final
conjunct shows this arising in a full `calculate_budget` run (starting
budget 100, one flight for one person costs 150, leaving -50 at the
discount step). -/
theorem applyDiscount_positive_counterexample :
    ((0 : ℕ) = 3 / 4 ∨ (0 : ℕ) = 3 / 3) ∧
    applyDiscount "X" 0 3 (-50) < -50 ∧
    calculate_budget cfgDefault rng0 [locFlight] 3 100 = .ok "app47.50" := by
  have h2 : applyDiscount "X" 0 3 (-50 : ℚ) = -105 / 2 := by
    simp [applyDiscount, show ¬"X" ∈ discount_locations from by decide]
    norm_num
  refine ⟨Or.inl (by norm_num), by rw [h2]; norm_num, ?_⟩
  have h1 : processSlots cfgDefault rng0 1 [flightSlot] 100 = .ok (-50) := by
    simp [processSlots, processSlot, flightSlot, flight_costs]
    norm_num
  have h3 : applyFloor 1 0 3 (-105 / 2 : ℚ) = 95 / 2 := by
    simp only [applyFloor]
    rw [max_eq_right (by norm_num : (-105 / 2 : ℚ) ≤ 0)]
    rw [if_pos (by norm_num)]
    norm_num
  have h4 : format_cost (95 / 2 : ℚ) = "app47.50" := by
    have hc : roundHalfEven ((95 / 2 : ℚ) * 100) = 4750 := by
      have h : ((95 / 2 : ℚ) * 100) = ((4750 : ℤ) : ℚ) := by norm_num
      rw [h, roundHalfEven_int]
    simp only [format_cost, renderFixed2_eval _ _ hc]
    rw [if_neg (by norm_num : ¬(95 / 2 : ℚ) < 0)]
    decide
  rw [calculate_budget_cons cfgDefault rng0 locFlight [] 3 100 (by norm_num)]
  simp only [locFlight]
  simp only [List.getElem?_cons_zero]
  rw [h1]
  simp only [h2, h3, h4]

/-- Witness for C4: floor top-up fires when the per-day remainder is below
100. -/
theorem applyFloor_spec_witness : applyFloor 2 0 4 200 = 300 := by
  rw [(applyFloor_spec 2 0 4 200 (by norm_num)).1 (by norm_num [max_def])]
  norm_num [max_def]

/-- Counterexample for C5 as stated: with current budget 1 and minimum
target 9/8 = 1.125, the returned amount is `round(0.125, 2) = 0.12 = 3/25`
and not `min - current = 1/8`. -/
theorem suggest_adjustments_exact_counterexample :
    suggest_budget_adjustments 1 (9 / 8, 2) =
      .ok ⟨1, [9 / 8, 2], [⟨"increase", some (3 / 25), some (25 / 2),
        "Consider adding more activities or dining at higher-end restaurants"⟩]⟩ ∧
    (3 / 25 : ℚ) ≠ 9 / 8 - 1 := by
  have hr1 : round2 ((9 / 8 : ℚ) - 1) = 3 / 25 := by
    simp only [round2]
    have h : (((9 / 8 : ℚ) - 1) * 100) = ((12 : ℤ) : ℚ) + 1 / 2 := by norm_num
    rw [h, roundHalfEven_add_half]
    norm_num
  have hr2 : round2 (((9 / 8 : ℚ) - 1) / 1 * 100) = 25 / 2 := by
    simp only [round2]
    have h : ((((9 / 8 : ℚ) - 1) / 1 * 100) * 100) = ((1250 : ℤ) : ℚ) := by norm_num
    rw [h, roundHalfEven_int]
    norm_num
  constructor
  · simp only [suggest_budget_adjustments]
    rw [if_pos (by norm_num : (1 : ℚ) < 9 / 8), if_neg (by norm_num : (1 : ℚ) ≠ 0)]
    rw [hr1, hr2]
  · norm_num

/-- Witness for the amended C5 in the `increase` branch. -/
theorem suggest_adjustments_spec_witness :
    suggest_budget_adjustments 50 (100, 200) =
      .ok ⟨50, [100, 200], [⟨"increase", some 50, some 100,
        "Consider adding more activities or dining at higher-end restaurants"⟩]⟩ := by
  rw [(suggest_adjustments_spec 50 100 200 (by norm_num)).1 (by norm_num)]
  have h1 : round2 ((100 : ℚ) - 50) = 50 := by
    simp only [round2]
    have h : (((100 : ℚ) - 50) * 100) = ((5000 : ℤ) : ℚ) := by norm_num
    rw [h, roundHalfEven_int]
    norm_num
  have h2 : round2 (((100 : ℚ) - 50) / 50 * 100) = 100 := by
    simp only [round2]
    have h : ((((100 : ℚ) - 50) / 50 * 100) * 100) = ((10000 : ℤ) : ℚ) := by norm_num
    rw [h, roundHalfEven_int]
    norm_num
  rw [h1, h2]

/-- Witness for C6 at `days = 3`, style `moderate`, tier `8/5`, `n = 2`. -/
theorem estimate_total_budget_linear_witness :
    (estimate_total_budget 3 "moderate" (8 / 5) (2 * 2)).total_estimate =
      2 * (estimate_total_budget 3 "moderate" (8 / 5) 2).total_estimate :=
  estimate_total_budget_linear 3 "moderate" (8 / 5) 2 (by norm_num) (Or.inr (Or.inl rfl))

/-- Counterexample for C7 as stated: the itinerary contains a priced
accommodation slot (on day 1) and the hotel tier `luxury` is unknown, yet
`calculate_budget` returns a value instead of signalling an error, because
the early return stops after day 0. -/
theorem unknown_tier_counterexample :
    hotel_costs cfgLuxury.hotel = none ∧
    accommodationSlot.already_slot = false ∧
    accommodationSlot.content_category_name = "accommodation" ∧
    accommodationSlot ∈ List.flatten locLateHotel.detailed_plan ∧
    calculate_budget cfgLuxury rng0 [locLateHotel] 2 1000 = .ok "app1050.00" := by
  refine ⟨rfl, rfl, rfl, by decide, ?_⟩
  have h2 : applyDiscount "X" 0 2 (1000 : ℚ) = 1050 := by
    simp [applyDiscount, show ¬"X" ∈ discount_locations from by decide]
    norm_num
  have h3 : applyFloor 1 0 2 (1050 : ℚ) = 1050 := by
    simp only [applyFloor]
    rw [max_eq_left (by norm_num : (0 : ℚ) ≤ 1050)]
    rw [if_neg (by norm_num)]
  have h4 : format_cost (1050 : ℚ) = "app1050.00" := by
    have hc : roundHalfEven ((1050 : ℚ) * 100) = 105000 := by
      have h : ((1050 : ℚ) * 100) = ((105000 : ℤ) : ℚ) := by norm_num
      rw [h, roundHalfEven_int]
    simp only [format_cost, renderFixed2_eval _ _ hc]
    rw [if_neg (by norm_num : ¬(1050 : ℚ) < 0)]
    decide
  rw [calculate_budget_cons cfgLuxury rng0 locLateHotel [] 2 1000 (by norm_num)]
  simp only [locLateHotel]
  simp only [List.getElem?_cons_zero]
  rw [show processSlots cfgLuxury rng0 1 [] 1000 = .ok 1000 from rfl]
  simp only [h2, h3, h4]

/-- Witness for the amended C7: the same unknown hotel tier with the
accommodation slot on day 0 makes `calculate_budget` raise a lookup
error. -/
theorem unknown_tier_error_witness :
    ∃ e, calculate_budget cfgLuxury rng0 [locDay0Hotel] 2 1000 = .error e :=
  unknown_tier_error cfgLuxury rng0 locDay0Hotel [] 2 1000 [accommodationSlot]
    accommodationSlot (by norm_num) rfl (by decide) rfl (Or.inl ⟨rfl, rfl⟩)

/-- Witness for C8 on a run with an empty location list and budget
123.4. -/
theorem calculate_budget_format_witness :
    ∃ p c1 c2, format_cost (617 / 5 : ℚ) = "app" ++ p ++ "." ++ String.mk [c1, c2] ∧
      '.' ∉ p.data ∧ c1.isDigit = true ∧ c2.isDigit = true :=
  calculate_budget_format cfgDefault rng0 [] 1 (617 / 5) (format_cost (617 / 5)) rfl

/-- Witness for C9 at current budget 0 and target range (1, 2). -/
theorem suggest_adjustments_zero_div_witness :
    suggest_budget_adjustments 0 (1, 2) = .error .zeroDivisionError :=
  suggest_adjustments_zero_div 1 2 (Or.inl (by norm_num))

/-- Witness for C10: a `taxi` transport slot (present in the
`trans_action_cost` table) is silently unpriced. -/
theorem unknown_transport_noop_witness :
    trans_action_cost "taxi" = some "bus" ∧
    processSlot cfgDefault rng0 2 taxiSlot 500 = .ok 500 :=
  ⟨rfl, (unknown_transport_noop cfgDefault rng0 2 taxiSlot 500 rfl
    (by decide) (by decide) (by decide) (by decide)).1⟩

end TravelBudget
